import Mathlib

/-!
Shallow embedding of `src/csvs_to_excel.py`: a pipeline that loads CSV files
into in-memory tables and writes them, one sheet per file plus a summary
Index sheet, into a single Excel workbook.

Modelling conventions:
* Python strings are sequences of code points, modelled as `List Char`
  (`PyStr`); `len` is `List.length` and slicing `s[:n]` is `List.take n`.
* A pandas DataFrame is a `Table`: an ordered list of column names and an
  ordered list of rows; every cell is kept in its `astype(str)` rendering,
  which is all `auto_widths` observes.
* Calls into the spreadsheet library (xlsxwriter) are recorded as an ordered
  list of `WriteOp` values per sheet: the bulk `to_excel` write, the explicit
  header-cell writes, the autofilter, the freeze-pane call and the
  `set_column` width calls, in the order the source issues them.
* Console output is recorded as a list of structured `Msg` values.
* Loading a source file is an external effect; its three possible outcomes
  (path missing, parse failure, loaded table) are a `LoadResult` carried by
  each `Source` together with the path, file name and stem of the file.
-/

/-- A Python string as a sequence of code points. -/
abbrev PyStr := List Char

/-- A loaded DataFrame: ordered column names and ordered rows; each cell is
its `astype(str)` text. -/
structure Table where
  headers : List PyStr
  rows : List (List PyStr)
deriving Repr, DecidableEq

/-- pandas `df.empty`: true when either axis has length 0. -/
def Table.emptyDF (df : Table) : Bool :=
  df.rows.isEmpty || df.headers.isEmpty

/-- Embeds `df[col].astype(str).map(len).max() if not df.empty else 0` for
the column at index `i` (source line 23). -/
def colMaxLen (df : Table) (i : Nat) : Nat :=
  if df.emptyDF then 0
  else (df.rows.map (fun r => (r.getD i []).length)).foldr max 0

/-- Embeds `auto_widths(df, min_width, max_width)` (source lines 20-28): one
width per column, `min(max(header_len, max_len, min_width), max_width) + 2`. -/
def auto_widths (df : Table) (min_width max_width : Nat) : List Nat :=
  (List.range df.headers.length).map (fun i =>
    let max_len := colMaxLen df i
    let header_len := (df.headers.getD i []).length
    let w := max (max header_len max_len) min_width
    let w2 := min w max_width
    w2 + 2)

/-- An xlsxwriter cell format (`workbook.add_format`). -/
structure Format where
  bold : Bool
  bg_color : PyStr
  border : Nat
deriving Repr, DecidableEq

/-- Header format for data sheets (source line 52). -/
def header_fmt : Format := ⟨true, "#DCE6F1".data, 1⟩

/-- Header format for the Index sheet (source line 79). -/
def idx_header_fmt : Format := ⟨true, "#F2F2F2".data, 1⟩

/-- One call into the spreadsheet library. -/
inductive WriteOp where
  | bulk (df : Table)
  | write (row col : Nat) (value : PyStr) (fmt : Format)
  | setAutofilter (firstRow firstCol lastRow lastCol : Nat)
  | freezePanes (row col : Nat)
  | setColumn (firstCol lastColArg : Nat) (width : Nat)
deriving Repr, DecidableEq

/-- Embeds `max(len(df.columns)-1, 0)` (source line 57), computed in `Int` as
Python does and then read back as a `Nat`. -/
def lastColIndex (ncols : Nat) : Nat :=
  (max ((ncols : Int) - 1) 0).toNat

/-- The calls the source issues for one sheet, in order (lines 48-63 for a
data sheet; lines 77-85 use the same sequence for the Index sheet):
bulk `to_excel` write, explicit styled header-cell writes, autofilter,
freeze panes, per-column width calls. -/
def sheetOps (df : Table) (fmt : Format) : List WriteOp :=
  WriteOp.bulk df ::
    (df.headers.enum.map (fun p => WriteOp.write 0 p.1 p.2 fmt) ++
      [WriteOp.setAutofilter 0 0 df.rows.length (lastColIndex df.headers.length),
       WriteOp.freezePanes 1 0] ++
      ((auto_widths df 10 50).enum.map (fun p => WriteOp.setColumn p.1 p.1 p.2)))

/-- One written sheet: its name, the table it was written from and the
header format it was styled with. -/
structure Page where
  name : PyStr
  df : Table
  fmt : Format
deriving Repr, DecidableEq

/-- The ordered calls with which a page was written. -/
def Page.ops (p : Page) : List WriteOp := sheetOps p.df p.fmt

/-- One summary record (source lines 65-70). -/
structure SummaryRow where
  sheet : PyStr
  rows : Nat
  columns : Nat
  source_file : PyStr
deriving Repr, DecidableEq

/-- Outcome of attempting to load one source path. -/
inductive LoadResult where
  | missing
  | parseError (cause : PyStr)
  | ok (df : Table)
deriving Repr, DecidableEq

/-- One candidate CSV source: the path string, the file name
(`csv_path.name`), the stem (`csv_path.stem`) and the load outcome. -/
structure Source where
  path : PyStr
  name : PyStr
  stem : PyStr
  result : LoadResult
deriving Repr, DecidableEq

/-- A console message, structured (source lines 39, 44, 71, 87, 90). -/
inductive Msg where
  | warnMissing (path : PyStr)
  | errorReading (path cause : PyStr)
  | wroteSheet (sheet : PyStr) (rows cols : Nat)
  | noCsvs
  | saved (outPath : PyStr)
deriving Repr, DecidableEq

/-- Embeds `csv_path.stem[:31]` (source line 47). -/
def sheetNameOf (stem : PyStr) : PyStr := stem.take 31

/-- One iteration of the loop body (source lines 37-71): either a skip with
its message, or the written page and its summary record with the progress
message. -/
def processSource (s : Source) : Option (Page × SummaryRow) × Msg :=
  match s.result with
  | LoadResult.missing => (none, Msg.warnMissing s.path)
  | LoadResult.parseError e => (none, Msg.errorReading s.path e)
  | LoadResult.ok df =>
      let sheet_name := sheetNameOf s.stem
      (some (⟨sheet_name, df, header_fmt⟩,
             ⟨sheet_name, df.rows.length, df.headers.length, s.name⟩),
       Msg.wroteSheet sheet_name df.rows.length df.headers.length)

/-- Accumulated state of the loop: written pages, summary records and
messages, each in emission order. -/
structure LoopState where
  pages : List Page
  summary_rows : List SummaryRow
  msgs : List Msg
deriving Repr, DecidableEq

/-- The whole loop over the sources (source lines 37-71). -/
def processAll : List Source → LoopState
  | [] => ⟨[], [], []⟩
  | s :: rest =>
      let r := processSource s
      let st := processAll rest
      match r.1 with
      | none => ⟨st.pages, st.summary_rows, r.2 :: st.msgs⟩
      | some pr => ⟨pr.1 :: st.pages, pr.2 :: st.summary_rows, r.2 :: st.msgs⟩

/-- Embeds `pd.DataFrame(summary_rows)` (source line 75): columns in dict insertion
order; the numeric cells render via `str`. -/
def idxTable (rs : List SummaryRow) : Table :=
  { headers := ["sheet".data, "rows".data, "columns".data, "source_file".data],
    rows := rs.map (fun r =>
      [r.sheet, (toString r.rows).data, (toString r.columns).data, r.source_file]) }

/-- Result of a whole `write_workbook` run. -/
structure RunResult where
  pages : List Page
  summary_rows : List SummaryRow
  msgs : List Msg
deriving Repr, DecidableEq

/-- Embeds `write_workbook(out_path, csv_paths)` (source lines 30-90): run the loop,
then write the Index sheet iff any summary rows exist (else report that no
CSVs were written), then close the writer and report the saved path. -/
def write_workbook (out_path : PyStr) (sources : List Source) : RunResult :=
  let st := processAll sources
  if st.summary_rows.isEmpty then
    ⟨st.pages, st.summary_rows, st.msgs ++ [Msg.noCsvs, Msg.saved out_path]⟩
  else
    ⟨st.pages ++ [⟨"Index".data, idxTable st.summary_rows, idx_header_fmt⟩],
     st.summary_rows, st.msgs ++ [Msg.saved out_path]⟩

/-- The usage line printed when no output path is given (source line 94). -/
def usageMsg : PyStr :=
  "Usage: python csvs_to_excel.py output.xlsx [csv1.csv csv2.csv ...]".data

/-- The default source list (source line 101). -/
def defaultCsvs : List PyStr :=
  ["Speed_Limits.csv".data, "Traffic_Volumes.csv".data]

/-- Outcome of `main`: either the usage error with its exit status, taken
before any file I/O, or the resolved output path and source list passed to
`write_workbook`. -/
inductive MainResult where
  | usageError (msg : PyStr) (exitCode : Nat)
  | run (out : PyStr) (csvs : List PyStr)
deriving Repr, DecidableEq

/-- Embeds `main()` (source lines 92-102; named `mainFn` because Lean
reserves `main`); `argv` includes the program name at
index 0, as `sys.argv` does. -/
def mainFn (argv : List PyStr) : MainResult :=
  if argv.length < 2 then MainResult.usageError usageMsg 1
  else
    let out := argv.getD 1 []
    let csvs := argv.drop 2
    MainResult.run out (if csvs.isEmpty then defaultCsvs else csvs)

/-! ## Helper lemmas -/

/-- The page the loop produces for one source, when it produces one. -/
def pageOf? (s : Source) : Option Page :=
  ((processSource s).1).map Prod.fst

/-- The summary record the loop produces for one source, when it does. -/
def summaryOf? (s : Source) : Option SummaryRow :=
  ((processSource s).1).map Prod.snd

theorem pageOf?_eq_some (s : Source) (p : Page) :
    pageOf? s = some p ↔
      ∃ df, s.result = LoadResult.ok df ∧ p = ⟨sheetNameOf s.stem, df, header_fmt⟩ := by
  cases hr : s.result <;>
    simp [pageOf?, processSource, hr, eq_comm]

theorem summaryOf?_eq (s : Source) :
    summaryOf? s =
      match s.result with
      | LoadResult.ok df =>
          some ⟨sheetNameOf s.stem, df.rows.length, df.headers.length, s.name⟩
      | _ => none := by
  cases hr : s.result <;> simp [summaryOf?, processSource, hr]

theorem pageOf?_none_iff (s : Source) :
    pageOf? s = none ↔ summaryOf? s = none := by
  cases hr : s.result <;> simp [pageOf?, summaryOf?, processSource, hr]

/-- Closed form of the loop: one optional page and one optional summary row
per source, and exactly one message per source. -/
theorem processAll_eq (sources : List Source) :
    processAll sources =
      ⟨sources.filterMap pageOf?, sources.filterMap summaryOf?,
        sources.map (fun s => (processSource s).2)⟩ := by
  induction sources with
  | nil => rfl
  | cons s rest ih =>
      simp only [processAll, ih]
      cases h : (processSource s).1 with
      | none =>
          simp [pageOf?, summaryOf?, h]
      | some pr =>
          simp [pageOf?, summaryOf?, h]

theorem auto_widths_length (df : Table) (a b : Nat) :
    (auto_widths df a b).length = df.headers.length := by
  simp [auto_widths]

theorem auto_widths_getD (df : Table) (a b i : Nat) (h : i < df.headers.length) :
    (auto_widths df a b).getD i 0 =
      min (max (max (df.headers.getD i []).length (colMaxLen df i)) a) b + 2 := by
  have hlen : i < (auto_widths df a b).length := by
    simpa [auto_widths_length] using h
  rw [List.getD_eq_getElem _ _ hlen]
  simp [auto_widths]

theorem colMaxLen_of_no_rows (df : Table) (hr : df.rows = []) (i : Nat) :
    colMaxLen df i = 0 := by
  simp [colMaxLen, Table.emptyDF, hr]

/-- Membership in the pages of a run: either the page of a successfully
loaded source or, when at least one summary row exists, the Index page. -/
theorem mem_pages_iff (out : PyStr) (sources : List Source) (p : Page) :
    p ∈ (write_workbook out sources).pages ↔
      ((∃ s ∈ sources, ∃ df, s.result = LoadResult.ok df ∧
          p = ⟨sheetNameOf s.stem, df, header_fmt⟩) ∨
        (sources.filterMap summaryOf? ≠ [] ∧
          p = ⟨"Index".data, idxTable (sources.filterMap summaryOf?), idx_header_fmt⟩)) := by
  unfold write_workbook
  rw [processAll_eq]
  by_cases hs : sources.filterMap summaryOf? = []
  · simp only [hs, List.isEmpty_nil, if_pos]
    simp [List.mem_filterMap, pageOf?_eq_some]
  · rw [if_neg (by simpa [List.isEmpty_iff] using hs)]
    simp [List.mem_filterMap, pageOf?_eq_some, hs, or_comm, and_comm]

/-- The value a call writes into a cell of row `r`, if it writes one. -/
def rowCellValue (r : Nat) : WriteOp → Option PyStr
  | WriteOp.write r2 _ v _ => if r2 = r then some v else none
  | _ => none

/-- The values explicitly written (cell by cell) into row `r`, in call
order. -/
def rowValues (r : Nat) (ops : List WriteOp) : List PyStr :=
  ops.filterMap (rowCellValue r)

theorem filterMap_some_snd (l : List (Nat × PyStr)) :
    l.filterMap (fun p => some p.2) = l.map Prod.snd := by
  induction l with
  | nil => rfl
  | cons a t ih => simp [ih]

theorem rowValues_sheetOps (df : Table) (fmt : Format) :
    rowValues 0 (sheetOps df fmt) = df.headers := by
  simp only [rowValues, sheetOps, List.filterMap_cons, List.filterMap_append,
    List.filterMap_map, Function.comp_def, rowCellValue]
  simp [filterMap_some_snd, List.enum_map_snd]

/-! ## Witness fixtures: a tiny concrete run -/

/-- A concrete 1x2 table used to witness the theorems. -/
def wTable : Table :=
  ⟨["id".data, "name".data], [["1".data, "alice".data]]⟩

/-- A source that loads `wTable`. -/
def wSrcOk : Source :=
  ⟨"A.csv".data, "A.csv".data, "A".data, LoadResult.ok wTable⟩

/-- A source whose path does not exist. -/
def wSrcMissing : Source :=
  ⟨"miss.csv".data, "miss.csv".data, "miss".data, LoadResult.missing⟩

/-- A concrete output path. -/
def wOut : PyStr := "out.xlsx".data

/-! ## Claim theorems -/

/-- C1: the Index page is written iff the sequence of summary records is
non-empty (when no record exists, no pages are written at all, so in
particular no Index page); when written it is the final page, its columns
are, in order, `sheet`, `rows`, `columns`, `source_file`, and it holds
exactly one record per successfully loaded source, in write order, whose
`rows` and `columns` fields are the loaded table's dimensions and whose
`source_file` field is the source file's name. -/
theorem index_page_spec (out : PyStr) (sources : List Source) :
    ((processAll sources).summary_rows = [] →
      (write_workbook out sources).pages = []) ∧
    ((processAll sources).summary_rows ≠ [] →
      (write_workbook out sources).pages =
        (processAll sources).pages ++
          [⟨"Index".data, idxTable (processAll sources).summary_rows, idx_header_fmt⟩]) ∧
    (idxTable (processAll sources).summary_rows).headers =
      ["sheet".data, "rows".data, "columns".data, "source_file".data] ∧
    (processAll sources).summary_rows =
      sources.filterMap (fun s =>
        match s.result with
        | LoadResult.ok df =>
            some ⟨sheetNameOf s.stem, df.rows.length, df.headers.length, s.name⟩
        | _ => none) ∧
    (idxTable (processAll sources).summary_rows).rows =
      (processAll sources).summary_rows.map (fun r =>
        [r.sheet, (toString r.rows).data, (toString r.columns).data, r.source_file]) := by
  refine ⟨?_, ?_, rfl, ?_, rfl⟩
  · intro h
    have hp : (processAll sources).pages = [] := by
      rw [processAll_eq] at h ⊢
      simp only [List.filterMap_eq_nil_iff] at h ⊢
      exact fun s hs => (pageOf?_none_iff s).2 (h s hs)
    simp [write_workbook, h, hp]
  · intro h
    simp [write_workbook, h]
  · rw [processAll_eq]
    exact List.filterMap_congr (fun s _ => summaryOf?_eq s)

/-- Witness for C1 at a concrete run with one loaded source. -/
theorem index_page_spec_w :
    (write_workbook wOut [wSrcOk]).pages =
      (processAll [wSrcOk]).pages ++
        [⟨"Index".data, idxTable (processAll [wSrcOk]).summary_rows, idx_header_fmt⟩] :=
  (index_page_spec wOut [wSrcOk]).2.1 (by decide)

/-- C2: a per-source failure never aborts the run. A missing path produces
exactly one warning naming that path and no page and no summary record; a
parse failure produces exactly one error message naming the path and the
cause and no page and no summary record; in both cases the loop continues
and its outcome on the remaining sources is unchanged. (In the embedding
the whole pipeline is a total function, so only the usage check in `mainFn`
and the modelled finalize step lie outside the loop's containment.) -/
theorem per_source_failure_contained (s : Source) (rest : List Source) :
    (s.result = LoadResult.missing →
      processAll (s :: rest) =
        ⟨(processAll rest).pages, (processAll rest).summary_rows,
          Msg.warnMissing s.path :: (processAll rest).msgs⟩) ∧
    (∀ e, s.result = LoadResult.parseError e →
      processAll (s :: rest) =
        ⟨(processAll rest).pages, (processAll rest).summary_rows,
          Msg.errorReading s.path e :: (processAll rest).msgs⟩) := by
  constructor
  · intro h
    simp [processAll, processSource, h]
  · intro e h
    simp [processAll, processSource, h]

/-- Witness for C2: the concrete missing source is skipped with one
warning. -/
theorem per_source_failure_contained_w :
    processAll [wSrcMissing] =
      ⟨(processAll []).pages, (processAll []).summary_rows,
        Msg.warnMissing wSrcMissing.path :: (processAll []).msgs⟩ :=
  (per_source_failure_contained wSrcMissing []).1 rfl

/-- Whether a load outcome is a successfully loaded table. -/
def LoadResult.isOk : LoadResult → Bool
  | LoadResult.ok _ => true
  | _ => false

/-- C3: if zero sources load successfully, the workbook gets no pages at
all (hence no Index page), the informational no-CSVs message is emitted,
and the run still reaches the finalize step and reports the saved workbook:
the messages are exactly one skip message per source followed by the
no-CSVs note and the saved-path report. -/
theorem zero_loaded_run (out : PyStr) (sources : List Source)
    (h : ∀ s ∈ sources, s.result.isOk = false) :
    (write_workbook out sources).pages = [] ∧
    (write_workbook out sources).msgs =
      sources.map (fun s => (processSource s).2) ++ [Msg.noCsvs, Msg.saved out] := by
  have hsum : (processAll sources).summary_rows = [] := by
    rw [processAll_eq]
    simp only [List.filterMap_eq_nil_iff]
    intro s hs
    have hok := h s hs
    cases hr : s.result with
    | missing => simp [summaryOf?, processSource, hr]
    | parseError e => simp [summaryOf?, processSource, hr]
    | ok df =>
        rw [hr] at hok
        simp [LoadResult.isOk] at hok
  have hp : (processAll sources).pages = [] := by
    rw [processAll_eq] at hsum ⊢
    simp only [List.filterMap_eq_nil_iff] at hsum ⊢
    exact fun s hs => (pageOf?_none_iff s).2 (hsum s hs)
  have hm : (processAll sources).msgs = sources.map (fun s => (processSource s).2) := by
    rw [processAll_eq]
  refine ⟨?_, ?_⟩ <;> simp [write_workbook, hsum, hp, hm]

/-- Witness for C3 at a concrete run whose only source is missing. -/
theorem zero_loaded_run_w :
    (write_workbook wOut [wSrcMissing]).pages = [] ∧
    (write_workbook wOut [wSrcMissing]).msgs =
      [wSrcMissing].map (fun s => (processSource s).2) ++
        [Msg.noCsvs, Msg.saved wOut] :=
  zero_loaded_run wOut [wSrcMissing] (by decide)

/-- C4: for every table and every column index, the computed width is
`min (max (max header_len max_len) 10) 50 + 2` — i.e.
`clamp(max(header length, max cell-text length, 10), 10, 50) + 2`, the
lower clamp bound being absorbed by the inner `max` — where for a table
with zero rows the max cell-text length is 0; hence every width lies in
`[12, 52]`. -/
theorem auto_widths_formula (df : Table) (i : Nat) (h : i < df.headers.length) :
    (auto_widths df 10 50).getD i 0 =
      min (max (max (df.headers.getD i []).length (colMaxLen df i)) 10) 50 + 2 ∧
    (df.rows = [] → colMaxLen df i = 0) ∧
    12 ≤ (auto_widths df 10 50).getD i 0 ∧
    (auto_widths df 10 50).getD i 0 ≤ 52 := by
  have hw := auto_widths_getD df 10 50 i h
  refine ⟨hw, fun hr => colMaxLen_of_no_rows df hr i, ?_, ?_⟩ <;> rw [hw] <;> omega

/-- Witness for C4: the width bounds at column 0 of the concrete table. -/
theorem auto_widths_formula_w :
    12 ≤ (auto_widths wTable 10 50).getD 0 0 ∧
    (auto_widths wTable 10 50).getD 0 0 ≤ 52 :=
  ⟨(auto_widths_formula wTable 0 (by decide)).2.2.1,
   (auto_widths_formula wTable 0 (by decide)).2.2.2⟩

/-- C5: every written page's call sequence contains the autofilter call
spanning rows `0` through the table's row count (the header row included)
and columns `0` through column count minus one; with zero columns the
range covers column `0` only. -/
theorem autofilter_extent (out : PyStr) (sources : List Source) (p : Page)
    (_hp : p ∈ (write_workbook out sources).pages) :
    WriteOp.setAutofilter 0 0 p.df.rows.length (lastColIndex p.df.headers.length)
      ∈ p.ops ∧
    (0 < p.df.headers.length →
      lastColIndex p.df.headers.length = p.df.headers.length - 1) ∧
    (p.df.headers.length = 0 → lastColIndex p.df.headers.length = 0) := by
  refine ⟨?_, ?_, ?_⟩
  · simp [Page.ops, sheetOps]
  · intro h0
    unfold lastColIndex
    omega
  · intro h0
    rw [h0]
    rfl

/-- Witness for C5: the autofilter call of the concrete run's first page. -/
theorem autofilter_extent_w :
    WriteOp.setAutofilter 0 0
        (Page.mk "A".data wTable header_fmt).df.rows.length
        (lastColIndex (Page.mk "A".data wTable header_fmt).df.headers.length)
      ∈ (Page.mk "A".data wTable header_fmt).ops :=
  (autofilter_extent wOut [wSrcOk] (Page.mk "A".data wTable header_fmt)
    (by decide)).1

/-- C6: for every successfully loaded source there is a written page whose
explicitly written row-0 cell values are exactly the table's column names
in column order, written with the header style after the bulk data write
(the calls for the page are the bulk write first, then the styled header
writes). -/
theorem header_row_written (out : PyStr) (sources : List Source)
    (s : Source) (df : Table)
    (hs : s ∈ sources) (hok : s.result = LoadResult.ok df) :
    ∃ p ∈ (write_workbook out sources).pages,
      p.name = sheetNameOf s.stem ∧ p.df = df ∧ p.fmt = header_fmt ∧
      rowValues 0 p.ops = df.headers ∧
      ∃ tail, p.ops =
        WriteOp.bulk df ::
          (df.headers.enum.map (fun q => WriteOp.write 0 q.1 q.2 header_fmt) ++ tail) := by
  refine ⟨⟨sheetNameOf s.stem, df, header_fmt⟩, ?_, rfl, rfl, rfl, ?_, ?_⟩
  · exact (mem_pages_iff out sources _).2 (Or.inl ⟨s, hs, df, hok, rfl⟩)
  · exact rowValues_sheetOps df header_fmt
  · refine ⟨[WriteOp.setAutofilter 0 0 df.rows.length (lastColIndex df.headers.length),
        WriteOp.freezePanes 1 0] ++
        ((auto_widths df 10 50).enum.map (fun q => WriteOp.setColumn q.1 q.1 q.2)), ?_⟩
    simp [Page.ops, sheetOps]

/-- Witness for C6 at the concrete run. -/
theorem header_row_written_w :
    ∃ p ∈ (write_workbook wOut [wSrcOk]).pages,
      p.name = sheetNameOf wSrcOk.stem ∧ p.df = wTable ∧ p.fmt = header_fmt ∧
      rowValues 0 p.ops = wTable.headers ∧
      ∃ tail, p.ops =
        WriteOp.bulk wTable ::
          (wTable.headers.enum.map (fun q => WriteOp.write 0 q.1 q.2 header_fmt) ++ tail) :=
  header_row_written wOut [wSrcOk] wSrcOk wTable (by decide) rfl

/-- A source whose stem has 40 characters, to witness truncation. -/
def wLongSrc : Source :=
  ⟨"L.csv".data, "L.csv".data, List.replicate 40 'x', LoadResult.ok wTable⟩

/-- C7: for every successfully loaded source whose stem is longer than 31
characters, the written page's name is the stem truncated to exactly 31
characters. -/
theorem sheet_name_truncated (out : PyStr) (sources : List Source)
    (s : Source) (df : Table)
    (hs : s ∈ sources) (hok : s.result = LoadResult.ok df)
    (hlong : 31 < s.stem.length) :
    ∃ p ∈ (write_workbook out sources).pages,
      p.name = s.stem.take 31 ∧ p.name.length = 31 := by
  refine ⟨⟨sheetNameOf s.stem, df, header_fmt⟩, ?_, rfl, ?_⟩
  · exact (mem_pages_iff out sources _).2 (Or.inl ⟨s, hs, df, hok, rfl⟩)
  · simp only [sheetNameOf, List.length_take]
    omega

/-- Witness for C7 at a concrete source with a 40-character stem. -/
theorem sheet_name_truncated_w :
    ∃ p ∈ (write_workbook wOut [wLongSrc]).pages,
      p.name = wLongSrc.stem.take 31 ∧ p.name.length = 31 :=
  sheet_name_truncated wOut [wLongSrc] wLongSrc wTable (by decide) rfl (by decide)

/-- C8: an invocation without an output path (fewer than two entries in
`sys.argv`) yields the usage message and the non-zero exit status 1 without
reaching `write_workbook` (no file I/O); an invocation with an output path
but no source paths runs with the fixed default list
`Speed_Limits.csv`, `Traffic_Volumes.csv`. -/
theorem cli_args (argv : List PyStr) :
    (argv.length < 2 →
      mainFn argv = MainResult.usageError usageMsg 1 ∧ (1 : Nat) ≠ 0) ∧
    (∀ prog out, argv = [prog, out] →
      mainFn argv = MainResult.run out defaultCsvs ∧
      defaultCsvs = ["Speed_Limits.csv".data, "Traffic_Volumes.csv".data]) := by
  constructor
  · intro h
    exact ⟨by simp [mainFn, h], by omega⟩
  · intro prog out h
    subst h
    exact ⟨by simp [mainFn], rfl⟩

/-- Witness for C8: usage error on an argument list with only the program
name, and the default sources when only an output path is given. -/
theorem cli_args_w :
    mainFn [List.replicate 1 'p'] = MainResult.usageError usageMsg 1 ∧
    mainFn ["prog".data, wOut] = MainResult.run wOut defaultCsvs :=
  ⟨((cli_args [List.replicate 1 'p']).1 (by decide)).1,
   ((cli_args ["prog".data, wOut]).2 "prog".data wOut rfl).1⟩

/-- C9: every sheet name ever used in a run, the Index page's included, has
length at most 31, and truncation is the identity on stems of length at
most 31. -/
theorem sheet_name_invariant (out : PyStr) (sources : List Source) :
    (∀ p ∈ (write_workbook out sources).pages, p.name.length ≤ 31) ∧
    (∀ stem : PyStr, stem.length ≤ 31 → sheetNameOf stem = stem) := by
  constructor
  · intro p hp
    rcases (mem_pages_iff out sources p).1 hp with ⟨s, _, df, _, rfl⟩ | ⟨_, rfl⟩
    · simp only [sheetNameOf, List.length_take]
      omega
    · show ("Index".data).length ≤ 31
      decide
  · intro stem hlen
    exact List.take_of_length_le hlen

/-- Witness for C9: truncation leaves the one-character stem `A` alone. -/
theorem sheet_name_invariant_w :
    sheetNameOf "A".data = "A".data :=
  (sheet_name_invariant wOut []).2 "A".data (by decide)

/-- C10: `auto_widths` is monotone. For two tables with the same column
names in the same order (so equal header lengths per column), if every
column's maximum cell-text length in the first table is at most that in the
second, then every computed width for the first is at most the
corresponding width for the second. -/
theorem auto_widths_monotone (t1 t2 : Table) (hh : t1.headers = t2.headers)
    (hm : ∀ i, i < t1.headers.length → colMaxLen t1 i ≤ colMaxLen t2 i) :
    ∀ i, i < t1.headers.length →
      (auto_widths t1 10 50).getD i 0 ≤ (auto_widths t2 10 50).getD i 0 := by
  intro i hi
  have hi2 : i < t2.headers.length := by rw [← hh]; exact hi
  rw [auto_widths_getD t1 10 50 i hi, auto_widths_getD t2 10 50 i hi2, hh]
  have hcol := hm i hi
  omega

/-- A table like `wTable` but with longer cell texts, to witness
monotonicity. -/
def wTableBig : Table :=
  ⟨["id".data, "name".data], [["12345".data, "alexandria the great".data]]⟩

/-- Witness for C10 at column 1 of the two concrete tables. -/
theorem auto_widths_monotone_w :
    (auto_widths wTable 10 50).getD 1 0 ≤ (auto_widths wTableBig 10 50).getD 1 0 :=
  auto_widths_monotone wTable wTableBig rfl (by decide) 1 (by decide)
